import Mathlib

/-!
Verification of the HomeInvestTracker calculation engine.

Shallow embedding of src/calculator.py and src/app.py over the real numbers.
Python / numpy non-finite float behaviour that the code can actually produce
is modelled explicitly:
  * `PyFloat` is a float result: a finite real, plus or minus infinity, or NaN
    (numpy log of a non-positive argument yields NaN or -inf without raising);
  * `Except PyExn` models a raised Python exception (`ZeroDivisionError` from
    scalar division by zero, `ValueError` / `OverflowError` from `int()` of
    NaN / infinity, `IndexError` from `.iloc[-1]` on an empty frame).
The Streamlit session state read by `calculate_investment_metrics`
(`st.session_state.rent_increases`) is passed as an explicit list parameter,
which is the standard shallow embedding of ambient mutable state.
-/

/-- Python float result: finite value, infinities, NaN. -/
inductive PyFloat where
  | fin (x : ℝ)
  | pinf
  | ninf
  | nan

/-- Python exceptions the embedded code can raise. -/
inductive PyExn where
  | zeroDivisionError
  | valueError
  | overflowError
  | indexError
deriving DecidableEq

/-- numpy `np.log` on a real scalar: NaN for negative input, -inf at zero. -/
noncomputable def nplog (x : ℝ) : PyFloat :=
  if x < 0 then .nan else if x = 0 then .ninf else .fin (Real.log x)

/-- IEEE negation on a float value. -/
def PyFloat.neg : PyFloat → PyFloat
  | .fin x => .fin (-x)
  | .pinf => .ninf
  | .ninf => .pinf
  | .nan => .nan

/-- IEEE division on float values (numpy semantics: no exception raised). -/
noncomputable def PyFloat.div : PyFloat → PyFloat → PyFloat
  | .nan, _ => .nan
  | .pinf, .fin y => if 0 ≤ y then .pinf else .ninf
  | .pinf, .pinf => .nan
  | .pinf, .ninf => .nan
  | .pinf, .nan => .nan
  | .ninf, .fin y => if 0 ≤ y then .ninf else .pinf
  | .ninf, .pinf => .nan
  | .ninf, .ninf => .nan
  | .ninf, .nan => .nan
  | .fin _, .pinf => .fin 0
  | .fin _, .ninf => .fin 0
  | .fin _, .nan => .nan
  | .fin x, .fin y =>
    if y = 0 then (if x = 0 then .nan else if 0 < x then .pinf else .ninf)
    else .fin (x / y)

/-- Python `round(x, 1)`: round to the nearest multiple of one tenth. -/
noncomputable def round1 (x : ℝ) : ℝ := ((round (10 * x) : ℤ) : ℝ) / 10

/-- `round(x, 1)` lifted to float values (infinities and NaN pass through). -/
noncomputable def round1F : PyFloat → PyFloat
  | .fin x => .fin (round1 x)
  | v => v

/-- Python `int()` truncation toward zero of a finite float. -/
noncomputable def pyInt (x : ℝ) : ℤ := if 0 ≤ x then ⌊x⌋ else -⌊-x⌋

/-- `calculate_loan_term` from src/calculator.py lines 5-23. -/
noncomputable def calculate_loan_term
    (principal down_payment interest_rate repayment_rate : ℝ) :
    Except PyExn PyFloat :=
  let loan_amount := principal - down_payment
  let monthly_interest_rate := interest_rate / 12 / 100
  let monthly_repayment_rate := repayment_rate / 12 / 100
  let total_monthly_rate := monthly_interest_rate + monthly_repayment_rate
  let monthly_payment := loan_amount * total_monthly_rate
  if monthly_interest_rate = 0 then
    if monthly_payment = 0 then .error .zeroDivisionError
    else .ok (.fin (loan_amount / monthly_payment))
  else
    if monthly_payment = 0 then .error .zeroDivisionError
    else
      let term_months :=
        ((nplog (1 - loan_amount * monthly_interest_rate / monthly_payment)).neg).div
          (nplog (1 + monthly_interest_rate))
      .ok (round1F (term_months.div (.fin 12)))

/-- `calculate_mortgage_payment` from src/calculator.py lines 25-29. -/
noncomputable def calculate_mortgage_payment
    (principal down_payment interest_rate repayment_rate : ℝ) : ℝ :=
  (principal - down_payment) * ((interest_rate + repayment_rate) / 12 / 100)

/-- Result triple of `calculate_tax_benefits`. -/
structure TaxBenefits where
  interest_deduction : ℝ
  afa_deduction : ℝ
  tax_benefit : ℝ

/-- `calculate_tax_benefits` from src/calculator.py lines 31-55. -/
noncomputable def calculate_tax_benefits
    (purchase_price loan_amount interest_rate afa_rate tax_rate : ℝ)
    (month : ℕ) (repayment_rate : ℝ) : TaxBenefits :=
  let years_passed : ℝ := (month : ℝ) / 12
  let remaining_loan := max 0 (loan_amount * (1 - years_passed * repayment_rate / 100))
  let monthly_interest := remaining_loan * (interest_rate / 12 / 100)
  let monthly_afa := purchase_price * (afa_rate / 100) / 12
  let total_deductible := monthly_interest + monthly_afa
  { interest_deduction := monthly_interest
    afa_deduction := monthly_afa
    tax_benefit := total_deductible * (tax_rate / 100) }

/-- One row of the amortization schedule (a row of the produced DataFrame). -/
structure AmortRow where
  month : ℕ
  payment : ℝ
  principal : ℝ
  interest : ℝ
  remainingBalance : ℝ
  interestDeduction : ℝ
  afaDeduction : ℝ
  taxBenefit : ℝ

/-- The loop body of `calculate_amortization_schedule` (src/calculator.py
lines 64-86): builds the remaining `k` rows starting at `month` with running
balance `bal`.  The recorded balance is floored at 0 but the running balance
is not, exactly as in the source. -/
noncomputable def scheduleAux
    (principal loan_amount interest_rate afa_rate tax_rate repayment_rate
      monthly_payment : ℝ) :
    ℕ → ℕ → ℝ → List AmortRow
  | 0, _, _ => []
  | k + 1, month, bal =>
    let tb := calculate_tax_benefits principal loan_amount interest_rate afa_rate
      tax_rate month repayment_rate
    let interest_payment := bal * (interest_rate / 12 / 100)
    let principal_payment := monthly_payment - interest_payment
    let new_balance := bal - principal_payment
    { month := month
      payment := monthly_payment
      principal := principal_payment
      interest := interest_payment
      remainingBalance := max 0 new_balance
      interestDeduction := tb.interest_deduction
      afaDeduction := tb.afa_deduction
      taxBenefit := tb.tax_benefit } ::
      scheduleAux principal loan_amount interest_rate afa_rate tax_rate
        repayment_rate monthly_payment k (month + 1) new_balance

/-- `calculate_amortization_schedule` from src/calculator.py lines 57-88.
`int(loan_term * 12)` raises on NaN/infinite loan terms, which is modelled by
the error results. -/
noncomputable def calculate_amortization_schedule
    (principal down_payment interest_rate repayment_rate afa_rate tax_rate : ℝ) :
    Except PyExn (List AmortRow) :=
  match calculate_loan_term principal down_payment interest_rate repayment_rate with
  | .error e => .error e
  | .ok .nan => .error .valueError
  | .ok .pinf => .error .overflowError
  | .ok .ninf => .error .overflowError
  | .ok (.fin loan_term) =>
    let loan_amount := principal - down_payment
    let num_payments := (pyInt (loan_term * 12)).toNat
    let monthly_payment :=
      calculate_mortgage_payment principal down_payment interest_rate repayment_rate
    .ok (scheduleAux principal loan_amount interest_rate afa_rate tax_rate
      repayment_rate monthly_payment num_payments 1 loan_amount)

/-- The escalated rent for a given month: base rent compounded by the annual
growth rate, plus every custom increase whose year is already reached
(src/calculator.py lines 116-129 and src/app.py lines 359-371; both variants
compute the same expression). `incs` is the year-to-amount dict as a list of
entries. -/
noncomputable def rentAtMonth
    (rental_income rent_increase_rate : ℝ) (incs : List (ℕ × ℝ)) (month : ℕ) : ℝ :=
  rental_income * (1 + rent_increase_rate / 100) ^ ((month : ℝ) / 12) +
    ((incs.filter (fun p => p.1 ≤ month / 12)).map (fun p => p.2)).sum

/-- The total-rent accumulation loop of `calculate_investment_metrics`
(src/calculator.py lines 107-131): sum of the escalated rent over months
`1 .. num_months`. -/
noncomputable def metricsTotalRent
    (rental_income rent_increase_rate : ℝ) (incs : List (ℕ × ℝ))
    (num_months : ℕ) : ℝ :=
  ((List.range num_months).map
    (fun j => rentAtMonth rental_income rent_increase_rate incs (j + 1))).sum

/-- The summary dict returned by `calculate_investment_metrics`. -/
structure InvestmentMetrics where
  loan_term : ℝ
  monthly_mortgage : ℝ
  monthly_cash_flow : ℝ
  annual_cash_flow : ℝ
  cash_on_cash_return : ℝ
  future_value : ℝ
  total_equity : ℝ
  monthly_tax_benefit : ℝ
  annual_tax_benefit : ℝ
  avg_rental_income : ℝ

/-- `calculate_investment_metrics` from src/calculator.py lines 90-174.
`rent_increases` is the `st.session_state.rent_increases` dict (ambient
mutable UI state) made explicit.  A division by the zero down payment at
line 148 raises `ZeroDivisionError` before the schedule is computed. -/
noncomputable def calculate_investment_metrics
    (purchase_price down_payment interest_rate repayment_rate monthly_expenses
      rental_income appreciation_rate afa_rate tax_rate rent_increase_rate : ℝ)
    (rent_increases : List (ℕ × ℝ)) :
    Except PyExn InvestmentMetrics :=
  match calculate_loan_term purchase_price down_payment interest_rate repayment_rate with
  | .error e => .error e
  | .ok .nan => .error .valueError
  | .ok .pinf => .error .overflowError
  | .ok .ninf => .error .overflowError
  | .ok (.fin loan_term) =>
    let monthly_mortgage :=
      calculate_mortgage_payment purchase_price down_payment interest_rate repayment_rate
    let loan_amount := purchase_price - down_payment
    let initial_tax_benefits := calculate_tax_benefits purchase_price loan_amount
      interest_rate afa_rate tax_rate 1 repayment_rate
    let num_months := (pyInt (loan_term * 12)).toNat
    let total_rent := metricsTotalRent rental_income rent_increase_rate
      rent_increases num_months
    let avg_rental_income :=
      if 0 < loan_term then total_rent / (loan_term * 12) else rental_income
    let monthly_cash_flow := rental_income - (monthly_mortgage + monthly_expenses) +
      initial_tax_benefits.tax_benefit
    let annual_cash_flow := monthly_cash_flow * 12
    if down_payment = 0 then .error .zeroDivisionError
    else
      let cash_on_cash_return := annual_cash_flow / down_payment * 100
      let future_value := purchase_price * (1 + appreciation_rate / 100) ^ loan_term
      match calculate_amortization_schedule purchase_price down_payment interest_rate
        repayment_rate afa_rate tax_rate with
      | .error e => .error e
      | .ok rows =>
        match rows.getLast? with
        | none => .error .indexError
        | some lastRow =>
          let remaining_balance := lastRow.remainingBalance
          let total_equity := future_value - remaining_balance
          let avg_annual_tax_benefit :=
            (rows.map (fun row => row.taxBenefit)).sum / (rows.length : ℝ) * 12
          .ok { loan_term := loan_term
                monthly_mortgage := monthly_mortgage
                monthly_cash_flow := monthly_cash_flow
                annual_cash_flow := annual_cash_flow
                cash_on_cash_return := cash_on_cash_return
                future_value := future_value
                total_equity := total_equity
                monthly_tax_benefit := initial_tax_benefits.tax_benefit
                annual_tax_benefit := avg_annual_tax_benefit
                avg_rental_income := avg_rental_income }

/-- The loop body of `calculate_etf_returns` (src/app.py lines 127-137):
builds the remaining `k` balances starting at `month` from balance `prev`. -/
noncomputable def etfAux
    (monthly_investment monthly_income monthly_return rent_increase_rate : ℝ) :
    ℕ → ℕ → ℝ → List ℝ
  | 0, _, _ => []
  | k + 1, month, prev =>
    let increased_rent :=
      monthly_income * (1 + rent_increase_rate / 100) ^ ((month : ℝ) / 12)
    let monthly_cash_flow := increased_rent - monthly_investment
    let new_balance := (prev + monthly_cash_flow) * (1 + monthly_return)
    new_balance :: etfAux monthly_investment monthly_income monthly_return
      rent_increase_rate k (month + 1) new_balance

/-- `calculate_etf_returns` from src/app.py lines 121-139. -/
noncomputable def calculate_etf_returns
    (initial_investment monthly_investment monthly_income years annual_return
      rent_increase_rate : ℝ) : List ℝ :=
  let months := (pyInt (years * 12)).toNat
  let monthly_return := (1 + annual_return) ^ ((1 : ℝ) / 12) - 1
  initial_investment ::
    etfAux monthly_investment monthly_income monthly_return rent_increase_rate
      months 1 initial_investment

/-- C9: for interestRatePct = 0, repaymentRatePct = 5, principal = 100000,
downPayment = 0, the solver takes the zero-interest branch and returns the
well-defined positive finite number 100000 / (100000 * 0.05 / 12) = 240. -/
theorem C9_zero_interest_branch :
    calculate_loan_term 100000 0 0 5 = .ok (.fin 240) ∧ (0 : ℝ) < 240 := by
  constructor
  · unfold calculate_loan_term
    norm_num
  · norm_num

/-- C10: when downPayment equals purchasePrice the loan amount is 0, the
monthly payment is 0, and both branches of the solver divide by that zero
payment: the call raises a raw ZeroDivisionError for every rate. -/
theorem C10_zero_loan_raises (principal interest_rate repayment_rate : ℝ) :
    calculate_loan_term principal principal interest_rate repayment_rate =
      .error .zeroDivisionError := by
  unfold calculate_loan_term
  simp

/-- Generic evaluation of the solver on a positive loan with positive rates:
the logarithmic branch is taken and a finite rounded term is returned. -/
lemma calculate_loan_term_pos
    (principal down_payment interest_rate repayment_rate : ℝ)
    (hL : 0 < principal - down_payment) (hr : 0 < interest_rate)
    (hs : 0 < repayment_rate) :
    calculate_loan_term principal down_payment interest_rate repayment_rate =
      .ok (.fin (round1 (Real.log ((interest_rate / 12 / 100 + repayment_rate / 12 / 100) /
        (repayment_rate / 12 / 100)) / Real.log (1 + interest_rate / 12 / 100) / 12))) := by
  have hmir : 0 < interest_rate / 12 / 100 := by positivity
  have hmrr : 0 < repayment_rate / 12 / 100 := by positivity
  have hsum : 0 < interest_rate / 12 / 100 + repayment_rate / 12 / 100 := by positivity
  have hpmt : (principal - down_payment) *
      (interest_rate / 12 / 100 + repayment_rate / 12 / 100) ≠ 0 := by positivity
  have harg : 1 - (principal - down_payment) * (interest_rate / 12 / 100) /
      ((principal - down_payment) * (interest_rate / 12 / 100 + repayment_rate / 12 / 100)) =
      (repayment_rate / 12 / 100) / (interest_rate / 12 / 100 + repayment_rate / 12 / 100) := by
    rw [mul_div_mul_left _ _ hL.ne']
    field_simp
  have hargpos : 0 < (repayment_rate / 12 / 100) /
      (interest_rate / 12 / 100 + repayment_rate / 12 / 100) := by positivity
  have hlogden : Real.log (1 + interest_rate / 12 / 100) ≠ 0 :=
    (Real.log_pos (by linarith)).ne'
  have hlogflip : -Real.log ((repayment_rate / 12 / 100) /
      (interest_rate / 12 / 100 + repayment_rate / 12 / 100)) =
      Real.log ((interest_rate / 12 / 100 + repayment_rate / 12 / 100) /
        (repayment_rate / 12 / 100)) := by
    rw [← Real.log_inv, inv_div]
  simp only [calculate_loan_term]
  rw [if_neg hmir.ne', if_neg hpmt, harg]
  simp only [nplog, if_neg (not_lt.mpr hargpos.le), if_neg hargpos.ne',
    if_neg (not_lt.mpr (by linarith : (0:ℝ) ≤ 1 + interest_rate / 12 / 100)),
    if_neg (by linarith : (1:ℝ) + interest_rate / 12 / 100 ≠ 0),
    PyFloat.neg, PyFloat.div, if_neg hlogden, round1F, hlogflip]
  norm_num

/-- C2 counterexample: at principal 100000, downPayment 0, interest 4 percent,
repayment -2 percent, the monthly payment (about 166.67) is at most
loanAmount times the monthly interest rate (about 333.33), yet the solver
raises no NonAmortizingLoan error: it silently returns NaN. -/
theorem C2_counterexample :
    (100000 - (0:ℝ)) * ((4:ℝ) / 12 / 100 + (-2:ℝ) / 12 / 100) ≤
      (100000 - (0:ℝ)) * ((4:ℝ) / 12 / 100) ∧
    calculate_loan_term 100000 0 4 (-2) = .ok .nan := by
  constructor
  · norm_num
  · simp only [calculate_loan_term]
    norm_num
    simp only [nplog, PyFloat.neg, PyFloat.div, round1F, if_pos (by norm_num : (1:ℝ) - 2 < 0)]
    norm_num

/-- C2 (amended): the solver performs no non-amortizing detection.  Whenever
the monthly payment is positive but strictly below loanAmount times the
monthly interest rate, it returns NaN; whenever the payment exactly equals
that interest, it returns positive infinity.  No named error is raised. -/
theorem C2_no_nonamortizing_detection
    (principal down_payment interest_rate repayment_rate : ℝ)
    (hr : 0 < interest_rate)
    (hpmt : 0 < (principal - down_payment) *
      (interest_rate / 12 / 100 + repayment_rate / 12 / 100)) :
    ((principal - down_payment) * (interest_rate / 12 / 100 + repayment_rate / 12 / 100) <
        (principal - down_payment) * (interest_rate / 12 / 100) →
      calculate_loan_term principal down_payment interest_rate repayment_rate =
        .ok .nan) ∧
    ((principal - down_payment) * (interest_rate / 12 / 100 + repayment_rate / 12 / 100) =
        (principal - down_payment) * (interest_rate / 12 / 100) →
      calculate_loan_term principal down_payment interest_rate repayment_rate =
        .ok .pinf) := by
  have hmir : 0 < interest_rate / 12 / 100 := by positivity
  constructor
  · intro hlt
    have harg : 1 - (principal - down_payment) * (interest_rate / 12 / 100) /
        ((principal - down_payment) *
          (interest_rate / 12 / 100 + repayment_rate / 12 / 100)) < 0 := by
      have h1 : 1 < (principal - down_payment) * (interest_rate / 12 / 100) /
          ((principal - down_payment) *
            (interest_rate / 12 / 100 + repayment_rate / 12 / 100)) :=
        (one_lt_div hpmt).mpr hlt
      linarith
    simp only [calculate_loan_term]
    rw [if_neg hmir.ne', if_neg hpmt.ne']
    simp only [nplog, if_pos harg, PyFloat.neg, PyFloat.div, round1F]
  · intro heq
    have harg : 1 - (principal - down_payment) * (interest_rate / 12 / 100) /
        ((principal - down_payment) *
          (interest_rate / 12 / 100 + repayment_rate / 12 / 100)) = 0 := by
      rw [← heq, div_self hpmt.ne']
      ring
    have hlogden : 0 < Real.log (1 + interest_rate / 12 / 100) :=
      Real.log_pos (by linarith)
    simp only [calculate_loan_term]
    rw [if_neg hmir.ne', if_neg hpmt.ne', harg]
    have h1 : ¬(1 + interest_rate / 12 / 100 < 0) := by linarith
    have h2 : ¬(1 + interest_rate / 12 / 100 = 0) := by intro h; linarith
    simp [nplog, PyFloat.neg, PyFloat.div, round1F, h1, h2, hlogden.le]

/-- C2 witness: the amended theorem applied at the concrete non-amortizing
input (100000, 0, 4, -2). -/
theorem C2_witness :
    (0:ℝ) < 4 ∧
    0 < (100000 - (0:ℝ)) * ((4:ℝ) / 12 / 100 + (-2:ℝ) / 12 / 100) ∧
    (100000 - (0:ℝ)) * ((4:ℝ) / 12 / 100 + (-2:ℝ) / 12 / 100) <
      (100000 - (0:ℝ)) * ((4:ℝ) / 12 / 100) ∧
    calculate_loan_term 100000 0 4 (-2) = .ok .nan :=
  ⟨by norm_num, by norm_num, by norm_num,
    (C2_no_nonamortizing_detection 100000 0 4 (-2) (by norm_num) (by norm_num)).1
      (by norm_num)⟩

/-- C3 counterexample: with downPayment = 0 and otherwise ordinary inputs the
metrics aggregator fails with a raw ZeroDivisionError (the cash-on-cash
division), not with any distinct named UndefinedReturn failure. -/
theorem C3_counterexample :
    calculate_investment_metrics 300000 0 4 2 500 2500 3 2 42 0 [] =
      .error .zeroDivisionError := by
  rw [calculate_investment_metrics,
    calculate_loan_term_pos 300000 0 4 2 (by norm_num) (by norm_num) (by norm_num)]
  norm_num

/-- C3 (amended): when downPayment = 0 the aggregator always aborts with a
raised exception (no partial metrics are returned and no Infinity or NaN is
propagated), but the failure is an unnamed arithmetic exception, not a
distinct UndefinedReturn error. -/
theorem C3_zero_down_aborts
    (purchase_price interest_rate repayment_rate monthly_expenses rental_income
      appreciation_rate afa_rate tax_rate rent_increase_rate : ℝ)
    (rent_increases : List (ℕ × ℝ)) :
    ∃ e, calculate_investment_metrics purchase_price 0 interest_rate repayment_rate
      monthly_expenses rental_income appreciation_rate afa_rate tax_rate
      rent_increase_rate rent_increases = .error e := by
  rcases hlt : calculate_loan_term purchase_price 0 interest_rate repayment_rate with e | v
  · exact ⟨e, by rw [calculate_investment_metrics, hlt]⟩
  · cases v with
    | fin t =>
      exact ⟨.zeroDivisionError, by rw [calculate_investment_metrics, hlt]; norm_num⟩
    | pinf => exact ⟨.overflowError, by rw [calculate_investment_metrics, hlt]⟩
    | ninf => exact ⟨.overflowError, by rw [calculate_investment_metrics, hlt]⟩
    | nan => exact ⟨.valueError, by rw [calculate_investment_metrics, hlt]⟩

/-- The ETF loop keeps the balance constant when the net cash flow and the
monthly return are both zero. -/
lemma etfAux_constant (monthly_income : ℝ) :
    ∀ k month prev, etfAux monthly_income monthly_income 0 0 k month prev =
      List.replicate k prev := by
  intro k
  induction k with
  | zero => intro m p; rfl
  | succ n ih =>
    intro m p
    have hbase : (1 : ℝ) + 0 / 100 = 1 := by norm_num
    simp [etfAux, hbase, Real.one_rpow, ih, List.replicate_succ]

/-- C8: the alternative-investment projector with outflow equal to rental
income, zero annual return and no rent growth returns the constant sequence
at the initial balance for every month 0..totalMonths. -/
theorem C8_constant_balance (initial_investment monthly_income years : ℝ) :
    calculate_etf_returns initial_investment monthly_income monthly_income years 0 0 =
      List.replicate ((pyInt (years * 12)).toNat + 1) initial_investment := by
  have hret : (1 : ℝ) + 0 = 1 := by norm_num
  simp only [calculate_etf_returns, hret, Real.one_rpow, sub_self]
  rw [etfAux_constant, List.replicate_succ]

/-- C6 counterexample: with a nonzero annual growth rate (basis 1200, growth
100 percent, one custom increase of 100 at year 1) the rent at month 12 is
not the rent at month 11 plus the increase: the compound-growth part also
changes between the two months. -/
theorem C6_counterexample :
    rentAtMonth 1200 100 [(1, 100)] 12 ≠ rentAtMonth 1200 100 [(1, 100)] 11 + 100 := by
  have hb : (1 : ℝ) + 100 / 100 = 2 := by norm_num
  have he12 : ((12 : ℕ) : ℝ) / 12 = 1 := by norm_num
  have h12 : rentAtMonth 1200 100 [(1, 100)] 12 = 2500 := by
    simp [rentAtMonth, hb, he12, Real.rpow_one]
    norm_num
  have hpow : (2 : ℝ) ^ (((11 : ℕ) : ℝ) / 12) < 2 := by
    have h := Real.rpow_lt_rpow_of_exponent_lt (x := 2) (by norm_num)
      (by norm_num : ((11 : ℕ) : ℝ) / 12 < 1)
    simpa [Real.rpow_one] using h
  have h11 : rentAtMonth 1200 100 [(1, 100)] 11 = 1200 * (2 : ℝ) ^ (((11 : ℕ) : ℝ) / 12) := by
    simp [rentAtMonth, hb]
    norm_num
  rw [h12, h11]
  have : 1200 * (2 : ℝ) ^ (((11 : ℕ) : ℝ) / 12) + 100 < 2500 := by nlinarith
  exact ne_of_gt this

/-- C6 (amended): at month 0 the rent is the base rent; a custom increase at
year Y is included in every month from 12Y on (never removed later); and with
a zero annual growth rate the rent at month 12Y is exactly the rent at month
12Y - 1 plus the increase.  With nonzero growth the jump between those two
months also contains the compound-growth delta. -/
theorem C6_escalation_amended (base A g : ℝ) (Y : ℕ) (hY : 1 ≤ Y) :
    rentAtMonth base g [(Y, A)] 0 = base ∧
    rentAtMonth base 0 [(Y, A)] (12 * Y) = rentAtMonth base 0 [(Y, A)] (12 * Y - 1) + A ∧
    (∀ m, 12 * Y ≤ m →
      rentAtMonth base g [(Y, A)] m = base * (1 + g / 100) ^ ((m : ℝ) / 12) + A) := by
  refine ⟨?_, ?_, ?_⟩
  · have h0 : ¬ (Y ≤ 0 / 12) := by omega
    have h0' : Y ≠ 0 := by omega
    simp [rentAtMonth, h0, h0', Real.rpow_zero]
  · have hL : Y ≤ 12 * Y / 12 := by omega
    have hR : ¬ (Y ≤ (12 * Y - 1) / 12) := by omega
    have hb : (1 : ℝ) + 0 / 100 = 1 := by norm_num
    simp [rentAtMonth, hL, hR, hb, Real.one_rpow]
  · intro m hm
    have hkeep : Y ≤ m / 12 := by omega
    simp [rentAtMonth, hkeep]

/-- C6 witness: the amended theorem applied at base 1000, growth 3 percent,
increase 100 at year 1, and month 24. -/
theorem C6_witness :
    1 ≤ 1 ∧
    rentAtMonth 1000 3 [(1, 100)] 0 = 1000 ∧
    rentAtMonth 1000 0 [(1, 100)] 12 = rentAtMonth 1000 0 [(1, 100)] 11 + 100 ∧
    rentAtMonth 1000 3 [(1, 100)] 24 = 1000 * (1 + 3 / 100) ^ ((24 : ℝ) / 12) + 100 :=
  ⟨le_refl 1, (C6_escalation_amended 1000 100 3 1 (le_refl 1)).1,
    by simpa using (C6_escalation_amended 1000 100 3 1 (le_refl 1)).2.1,
    by simpa using (C6_escalation_amended 1000 100 3 1 (le_refl 1)).2.2 24 (by norm_num)⟩

/-- Rational bracketing of log 3 / log(301/300): the exact term-in-months of
the reference scenario lies in [329.4, 330.6). -/
lemma scenario_log_bounds :
    329.4 * Real.log (301 / 300) ≤ Real.log 3 ∧
    Real.log 3 < 330.6 * Real.log (301 / 300) := by
  have hc : (0 : ℝ) < Real.log (301 / 300) := Real.log_pos (by norm_num)
  have h243 : (243 : ℝ) = 3 ^ (5 : ℕ) := by norm_num
  constructor
  · have hnat : ((301 : ℝ) / 300) ^ (1647 : ℕ) ≤ 243 := by
      rw [div_pow, div_le_iff (by positivity)]
      norm_num
    have hlog : Real.log (((301 : ℝ) / 300) ^ (1647 : ℕ)) ≤ Real.log 243 :=
      Real.log_le_log (by positivity) hnat
    rw [Real.log_pow, h243, Real.log_pow] at hlog
    push_cast at hlog
    linarith
  · have hnat : (243 : ℝ) < ((301 : ℝ) / 300) ^ (1653 : ℕ) := by
      rw [div_pow, lt_div_iff (by positivity)]
      norm_num
    have hlog : Real.log 243 < Real.log (((301 : ℝ) / 300) ^ (1653 : ℕ)) :=
      Real.log_lt_log (by norm_num) hnat
    rw [Real.log_pow, h243, Real.log_pow] at hlog
    push_cast at hlog
    linarith

/-- Rounding the scenario term to one decimal of years gives exactly 27.5. -/
lemma scenario_round1 :
    round1 (Real.log 3 / Real.log (301 / 300) / 12) = 27.5 := by
  have hc : (0 : ℝ) < Real.log (301 / 300) := Real.log_pos (by norm_num)
  obtain ⟨hlo, hhi⟩ := scenario_log_bounds
  have ht_lo : 329.4 ≤ Real.log 3 / Real.log (301 / 300) := (le_div_iff hc).mpr hlo
  have ht_hi : Real.log 3 / Real.log (301 / 300) < 330.6 := (div_lt_iff hc).mpr hhi
  have hround : round (10 * (Real.log 3 / Real.log (301 / 300) / 12)) = 275 := by
    rw [round_eq, Int.floor_eq_iff]
    constructor
    · push_cast
      linarith
    · push_cast
      linarith
  rw [round1, hround]
  norm_num

/-- Evaluation of the solver on the reference scenario: the returned loan
term is exactly 27.5 years. -/
lemma loan_term_scenario :
    calculate_loan_term 300000 30000 4 2 = .ok (.fin 27.5) := by
  rw [calculate_loan_term_pos 300000 30000 4 2 (by norm_num) (by norm_num) (by norm_num)]
  have h1 : ((4 : ℝ) / 12 / 100 + 2 / 12 / 100) / (2 / 12 / 100) = 3 := by norm_num
  have h2 : (1 : ℝ) + 4 / 12 / 100 = 301 / 300 := by norm_num
  rw [h1, h2, scenario_round1]

/-- Evaluation of the schedule call on the reference scenario: 330 rows are
generated from a 270000 starting balance with a 1350 monthly payment. -/
lemma schedule_scenario (afa_rate tax_rate : ℝ) :
    calculate_amortization_schedule 300000 30000 4 2 afa_rate tax_rate =
      .ok (scheduleAux 300000 270000 4 afa_rate tax_rate 2 1350 330 1 270000) := by
  rw [calculate_amortization_schedule, loan_term_scenario]
  have hm : calculate_mortgage_payment 300000 30000 4 2 = 1350 := by
    rw [calculate_mortgage_payment]; norm_num
  have hn : (pyInt ((27.5 : ℝ) * 12)).toNat = 330 := by
    have h330 : (27.5 : ℝ) * 12 = 330 := by norm_num
    rw [pyInt, h330, if_pos (by norm_num : (0:ℝ) ≤ 330)]
    have : ⌊(330 : ℝ)⌋ = 330 := by
      rw [show (330 : ℝ) = ((330 : ℤ) : ℝ) by norm_num, Int.floor_intCast]
    rw [this]
    rfl
  simp only [hm, hn]
  norm_num

/-- The first generated row of any schedule block. -/
lemma scheduleAux_head (P L ir afa tax rr PMT : ℝ) (k month : ℕ) (bal : ℝ) :
    (scheduleAux P L ir afa tax rr PMT (k + 1) month bal).head? =
      some { month := month
             payment := PMT
             principal := PMT - bal * (ir / 12 / 100)
             interest := bal * (ir / 12 / 100)
             remainingBalance := max 0 (bal - (PMT - bal * (ir / 12 / 100)))
             interestDeduction := (calculate_tax_benefits P L ir afa tax month rr).interest_deduction
             afaDeduction := (calculate_tax_benefits P L ir afa tax month rr).afa_deduction
             taxBenefit := (calculate_tax_benefits P L ir afa tax month rr).tax_benefit } := rfl

/-- C1 counterexample: on purchasePrice 300000, downPayment 30000, interest
4 percent, repayment 2 percent the solver returns exactly 27.5 years, which
is more than 2 years away from the 29.6 years the claim states. -/
theorem C1_counterexample :
    calculate_loan_term 300000 30000 4 2 = .ok (.fin 27.5) ∧
    2 < |(27.5 : ℝ) - 29.6| := by
  refine ⟨loan_term_scenario, ?_⟩
  have h : (27.5 : ℝ) - 29.6 = -(2.1) := by norm_num
  rw [h, abs_neg, abs_of_nonneg (by norm_num)]
  norm_num

/-- C1 (amended): on the reference scenario the payment calculator returns
exactly 1350, the loan-term solver returns the finite positive value 27.5
years (about 27.51 before the one-decimal rounding, not 29.6), and the first
schedule row has interest 900, principal 450, payment 1350. -/
theorem C1_scenario_amended :
    calculate_mortgage_payment 300000 30000 4 2 = 1350 ∧
    calculate_loan_term 300000 30000 4 2 = .ok (.fin 27.5) ∧ (0 : ℝ) < 27.5 ∧
    ∀ afa_rate tax_rate : ℝ, ∃ rows r0,
      calculate_amortization_schedule 300000 30000 4 2 afa_rate tax_rate = .ok rows ∧
      rows.head? = some r0 ∧ r0.interest = 900 ∧ r0.principal = 450 ∧
      r0.payment = 1350 := by
  refine ⟨by rw [calculate_mortgage_payment]; norm_num, loan_term_scenario,
    by norm_num, ?_⟩
  intro afa_rate tax_rate
  refine ⟨_, _, schedule_scenario afa_rate tax_rate,
    scheduleAux_head 300000 270000 4 afa_rate tax_rate 2 1350 329 1 270000,
    by norm_num, by norm_num, rfl⟩

/-- One iteration of the running-balance update of the schedule loop
(src/calculator.py lines 73-75). -/
noncomputable def balStep (interest_rate monthly_payment b : ℝ) : ℝ :=
  b - (monthly_payment - b * (interest_rate / 12 / 100))

/-- The row recorded at `month` from running balance `bal`. -/
noncomputable def mkAmortRow (P L ir afa tax rr PMT : ℝ) (month : ℕ) (bal : ℝ) :
    AmortRow :=
  { month := month
    payment := PMT
    principal := PMT - bal * (ir / 12 / 100)
    interest := bal * (ir / 12 / 100)
    remainingBalance := max 0 (balStep ir PMT bal)
    interestDeduction := (calculate_tax_benefits P L ir afa tax month rr).interest_deduction
    afaDeduction := (calculate_tax_benefits P L ir afa tax month rr).afa_deduction
    taxBenefit := (calculate_tax_benefits P L ir afa tax month rr).tax_benefit }

/-- Unfolding equation of the schedule loop. -/
lemma scheduleAux_cons (P L ir afa tax rr PMT : ℝ) (k month : ℕ) (bal : ℝ) :
    scheduleAux P L ir afa tax rr PMT (k + 1) month bal =
      mkAmortRow P L ir afa tax rr PMT month bal ::
        scheduleAux P L ir afa tax rr PMT k (month + 1) (balStep ir PMT bal) := rfl

/-- The principal portions telescope against the running balance. -/
lemma scheduleAux_sum_principal (P L ir afa tax rr PMT : ℝ) :
    ∀ (k m : ℕ) (b : ℝ),
      ((scheduleAux P L ir afa tax rr PMT k m b).map (fun row => row.principal)).sum =
        b - (balStep ir PMT)^[k] b := by
  intro k
  induction k with
  | zero => intro m b; simp [scheduleAux]
  | succ n ih =>
    intro m b
    rw [Function.iterate_succ_apply, scheduleAux_cons]
    simp only [List.map_cons, List.sum_cons, ih, mkAmortRow]
    rw [balStep]
    ring

/-- The recorded balance of the last row is the floored iterated balance. -/
lemma scheduleAux_getLast (P L ir afa tax rr PMT : ℝ) :
    ∀ (k m : ℕ) (b : ℝ) (lr : AmortRow),
      (scheduleAux P L ir afa tax rr PMT k m b).getLast? = some lr →
      lr.remainingBalance = max 0 ((balStep ir PMT)^[k] b) := by
  intro k
  induction k with
  | zero => intro m b lr h; simp [scheduleAux] at h
  | succ n ih =>
    intro m b lr h
    rw [scheduleAux_cons] at h
    cases n with
    | zero =>
      simp only [scheduleAux, List.getLast?_singleton, Option.some.injEq] at h
      subst h
      simp [mkAmortRow]
    | succ j =>
      rw [scheduleAux_cons, List.getLast?_cons_cons, ← scheduleAux_cons] at h
      rw [Function.iterate_succ_apply]
      exact ih (m + 1) _ lr h

/-- The recorded balances are non-increasing along the schedule whenever one
loop step can only decrease a running balance that is at most `L`. -/
lemma scheduleAux_chain (P L ir afa tax rr PMT : ℝ)
    (hstep : ∀ b : ℝ, b ≤ L → balStep ir PMT b ≤ b) :
    ∀ (k m : ℕ) (b : ℝ), b ≤ L →
      List.Chain' (fun a c => c.remainingBalance ≤ a.remainingBalance)
        (scheduleAux P L ir afa tax rr PMT k m b) := by
  intro k
  induction k with
  | zero => intro m b hb; simp [scheduleAux]
  | succ n ih =>
    intro m b hb
    rw [scheduleAux_cons, List.chain'_cons']
    refine ⟨?_, ih (m + 1) (balStep ir PMT b) (le_trans (hstep b hb) hb)⟩
    intro c hc
    cases n with
    | zero => simp [scheduleAux] at hc
    | succ j =>
      rw [scheduleAux_cons] at hc
      simp only [List.head?_cons, Option.mem_def, Option.some.injEq] at hc
      subst hc
      simp only [mkAmortRow]
      exact max_le_max (le_refl 0) (hstep _ (le_trans (hstep b hb) hb))

/-- Every recorded balance is non-negative (it is floored at 0). -/
lemma scheduleAux_nonneg (P L ir afa tax rr PMT : ℝ) :
    ∀ (k m : ℕ) (b : ℝ), ∀ row ∈ scheduleAux P L ir afa tax rr PMT k m b,
      0 ≤ row.remainingBalance := by
  intro k
  induction k with
  | zero => intro m b row h; simp [scheduleAux] at h
  | succ n ih =>
    intro m b row h
    rw [scheduleAux_cons] at h
    rcases List.mem_cons.mp h with h | h
    · subst h; simp [mkAmortRow]
    · exact ih _ _ row h

/-- A solver call that returns a value has a nonzero monthly payment (both
branches guard the division). -/
lemma calculate_loan_term_ok_payment
    (principal down_payment interest_rate repayment_rate : ℝ) (v : PyFloat)
    (h : calculate_loan_term principal down_payment interest_rate repayment_rate =
      .ok v) :
    (principal - down_payment) *
      (interest_rate / 12 / 100 + repayment_rate / 12 / 100) ≠ 0 := by
  intro h0
  simp only [calculate_loan_term] at h
  by_cases hmir : interest_rate / 12 / 100 = 0
  · rw [if_pos hmir, if_pos h0] at h
    exact absurd h (by simp)
  · rw [if_neg hmir, if_pos h0] at h
    exact absurd h (by simp)

/-- C5: for valid inputs (interest rate at least 0, repayment rate positive,
down payment between 0 and the price), every schedule the code produces has
non-increasing recorded remainingBalance across consecutive rows, and no
recorded remainingBalance is negative. -/
theorem C5_balance_monotone
    (principal down_payment interest_rate repayment_rate afa_rate tax_rate : ℝ)
    (h1 : 0 ≤ interest_rate) (h2 : 0 < repayment_rate)
    (h3 : 0 ≤ down_payment) (h4 : down_payment ≤ principal)
    (rows : List AmortRow)
    (hrows : calculate_amortization_schedule principal down_payment interest_rate
      repayment_rate afa_rate tax_rate = .ok rows) :
    List.Chain' (fun a c => c.remainingBalance ≤ a.remainingBalance) rows ∧
    ∀ row ∈ rows, 0 ≤ row.remainingBalance := by
  rw [calculate_amortization_schedule] at hrows
  rcases hterm : calculate_loan_term principal down_payment interest_rate repayment_rate
    with e | v
  · rw [hterm] at hrows; exact absurd hrows (by simp)
  · cases v with
    | pinf => rw [hterm] at hrows; exact absurd hrows (by simp)
    | ninf => rw [hterm] at hrows; exact absurd hrows (by simp)
    | nan => rw [hterm] at hrows; exact absurd hrows (by simp)
    | fin lt =>
      rw [hterm] at hrows
      simp only [Except.ok.injEq] at hrows
      subst hrows
      have hpay := calculate_loan_term_ok_payment principal down_payment interest_rate
        repayment_rate _ hterm
      have hLne : principal - down_payment ≠ 0 := by
        intro hz
        exact hpay (by rw [hz, zero_mul])
      have hL : 0 < principal - down_payment :=
        lt_of_le_of_ne (by linarith) (Ne.symm hLne)
      have hstep : ∀ b : ℝ, b ≤ principal - down_payment →
          balStep interest_rate
            (calculate_mortgage_payment principal down_payment interest_rate
              repayment_rate) b ≤ b := by
        intro b hb
        rw [balStep, calculate_mortgage_payment]
        have hbr : b * (interest_rate / 12 / 100) ≤
            (principal - down_payment) * (interest_rate / 12 / 100) :=
          mul_le_mul_of_nonneg_right hb (by positivity)
        have hLs : 0 < (principal - down_payment) * (repayment_rate / 12 / 100) :=
          mul_pos hL (by positivity)
        have hsplit : (principal - down_payment) *
            ((interest_rate + repayment_rate) / 12 / 100) =
            (principal - down_payment) * (interest_rate / 12 / 100) +
            (principal - down_payment) * (repayment_rate / 12 / 100) := by ring
        linarith
      exact ⟨scheduleAux_chain _ _ _ _ _ _ _ hstep _ 1 _ (le_refl _),
        scheduleAux_nonneg _ _ _ _ _ _ _ _ 1 _⟩

/-- C5 witness: the theorem applied to the reference scenario schedule. -/
theorem C5_witness :
    (0:ℝ) ≤ 4 ∧ (0:ℝ) < 2 ∧ (0:ℝ) ≤ 30000 ∧ (30000:ℝ) ≤ 300000 ∧
    (List.Chain' (fun a c => c.remainingBalance ≤ a.remainingBalance)
        (scheduleAux 300000 270000 4 2 42 2 1350 330 1 270000) ∧
      ∀ row ∈ scheduleAux 300000 270000 4 2 42 2 1350 330 1 270000,
        0 ≤ row.remainingBalance) :=
  ⟨by norm_num, by norm_num, by norm_num, by norm_num,
    C5_balance_monotone 300000 30000 4 2 2 42 (by norm_num) (by norm_num)
      (by norm_num) (by norm_num) _ (schedule_scenario 2 42)⟩

/-- Closed form of the iterated balance update: geometric annuity recursion. -/
lemma balStep_iterate (ir PMT L s : ℝ) (hr : ir / 12 / 100 ≠ 0)
    (hPMT : PMT = L * (ir / 12 / 100 + s)) :
    ∀ k : ℕ, (balStep ir PMT)^[k] L =
      (L / (ir / 12 / 100)) *
        ((ir / 12 / 100 + s) - s * (1 + ir / 12 / 100) ^ k) := by
  have hir : ir ≠ 0 := by
    intro h
    exact hr (by rw [h]; norm_num)
  intro k
  induction k with
  | zero =>
    simp only [Function.iterate_zero_apply, pow_zero, mul_one]
    field_simp
    ring
  | succ n ih =>
    rw [Function.iterate_succ_apply', ih, balStep, hPMT]
    field_simp
    ring

/-- Bounds on the number of payments derived from the rounded loan term:
`int(round(t/12, 1) * 12)` lies within `[t - 8/5, t + 3/5]` for positive `t`
(in months). -/
lemma pyInt_round_bounds (t : ℝ) (ht : 0 < t) :
    t - 8 / 5 ≤ (((pyInt (round1 (t / 12) * 12)).toNat : ℕ) : ℝ) ∧
    (((pyInt (round1 (t / 12) * 12)).toNat : ℕ) : ℝ) ≤ t + 3 / 5 := by
  have habs := abs_sub_round (10 * (t / 12))
  rw [abs_le] at habs
  have hrle : ((round (10 * (t / 12)) : ℤ) : ℝ) ≤ 10 * (t / 12) + 1 / 2 := by
    linarith [habs.1]
  have hrge : 10 * (t / 12) - 1 / 2 ≤ ((round (10 * (t / 12)) : ℤ) : ℝ) := by
    linarith [habs.2]
  have hround0 : (0 : ℤ) ≤ round (10 * (t / 12)) := by
    rw [round_eq]
    exact Int.le_floor.mpr (by push_cast; linarith)
  have hxval : round1 (t / 12) * 12 = ((round (10 * (t / 12)) : ℤ) : ℝ) * 12 / 10 := by
    rw [round1]; ring
  have hx0 : 0 ≤ round1 (t / 12) * 12 := by
    rw [hxval]
    have : (0 : ℝ) ≤ ((round (10 * (t / 12)) : ℤ) : ℝ) := by exact_mod_cast hround0
    linarith
  have hpy : pyInt (round1 (t / 12) * 12) = ⌊round1 (t / 12) * 12⌋ := by
    rw [pyInt, if_pos hx0]
  have hfl0 : (0 : ℤ) ≤ ⌊round1 (t / 12) * 12⌋ := Int.le_floor.mpr (by push_cast; linarith)
  have hcast : ((((pyInt (round1 (t / 12) * 12)).toNat : ℕ)) : ℝ) =
      ((⌊round1 (t / 12) * 12⌋ : ℤ) : ℝ) := by
    rw [hpy]
    exact_mod_cast Int.toNat_of_nonneg hfl0
  rw [hcast]
  have hfloor_le : ((⌊round1 (t / 12) * 12⌋ : ℤ) : ℝ) ≤ round1 (t / 12) * 12 :=
    Int.floor_le _
  have hfloor_gt : round1 (t / 12) * 12 - 1 < ((⌊round1 (t / 12) * 12⌋ : ℤ) : ℝ) :=
    Int.sub_one_lt_floor _
  constructor
  · linarith [hfloor_gt, hxval, hrge]
  · linarith [hfloor_le, hxval, hrle]

/-- Core payoff estimate, abstract form: `c` stands for log(1+r) and `T` for
the exact payoff month count.  When the number of payments `n` lies within
`[T - 8/5, T + 3/5]`, the residual annuity balance after `n` payments is at
most two monthly payments in absolute value (rates in the validated range). -/
lemma payoff_bound_abstract (L r s c T : ℝ) (n : ℕ) (hL : 0 < L) (hr : 0 < r)
    (hr60 : r ≤ 1 / 60) (hs : 0 < s) (hcpos : 0 < c) (hcr : c ≤ r)
    (hexpc : Real.exp c = 1 + r) (hexpT : Real.exp (T * c) = (r + s) / s)
    (hlb : T - 8 / 5 ≤ (n : ℝ)) (hub : (n : ℝ) ≤ T + 3 / 5) :
    |(L / r) * ((r + s) - s * (1 + r) ^ n)| ≤ 2 * (L * (r + s)) := by
  have hpow : ((1 + r) ^ n : ℝ) = Real.exp ((n : ℝ) * c) := by
    rw [← hexpc, ← Real.exp_nat_mul]
  have key : (L / r) * ((r + s) - s * (1 + r) ^ n) =
      (L * s / r) * (Real.exp (T * c) - Real.exp ((n : ℝ) * c)) := by
    rw [hpow, hexpT]
    field_simp
    ring
  rw [key]
  rcases le_total ((n : ℝ)) T with hnT | hTn
  · -- not yet paid off: the residual is non-negative and at most (8/5) PMT
    have hd : T - (n : ℝ) ≤ 8 / 5 := by linarith
    have hd0 : 0 ≤ T - (n : ℝ) := by linarith
    have hee : Real.exp ((n : ℝ) * c) ≤ Real.exp (T * c) :=
      Real.exp_le_exp.mpr (mul_le_mul_of_nonneg_right hnT hcpos.le)
    have hsub : Real.exp (T * c) - Real.exp ((n : ℝ) * c) ≤
        Real.exp (T * c) * ((T - (n : ℝ)) * c) := by
      have h1 : 1 - (T - (n : ℝ)) * c ≤ Real.exp (-((T - (n : ℝ)) * c)) := by
        have h := Real.add_one_le_exp (-((T - (n : ℝ)) * c))
        linarith
      have h2 : Real.exp ((n : ℝ) * c) = Real.exp (T * c) *
          Real.exp (-((T - (n : ℝ)) * c)) := by
        rw [← Real.exp_add]
        ring_nf
      have h3 : Real.exp (T * c) * (1 - (T - (n : ℝ)) * c) ≤ Real.exp ((n : ℝ) * c) := by
        rw [h2]
        exact mul_le_mul_of_nonneg_left h1 (Real.exp_pos _).le
      nlinarith [h3]
    have hval0 : 0 ≤ (L * s / r) * (Real.exp (T * c) - Real.exp ((n : ℝ) * c)) :=
      mul_nonneg (by positivity) (by linarith)
    rw [abs_of_nonneg hval0]
    have hdc : (T - (n : ℝ)) * c ≤ 8 / 5 * r :=
      mul_le_mul hd hcr hcpos.le (by norm_num)
    have hchain : (L * s / r) * (Real.exp (T * c) - Real.exp ((n : ℝ) * c)) ≤
        (L * s / r) * (Real.exp (T * c) * ((T - (n : ℝ)) * c)) :=
      mul_le_mul_of_nonneg_left hsub (by positivity)
    have hrw : (L * s / r) * (Real.exp (T * c) * ((T - (n : ℝ)) * c)) =
        (L * (r + s)) * (((T - (n : ℝ)) * c) / r) := by
      rw [hexpT]
      field_simp
      ring
    have hfrac : ((T - (n : ℝ)) * c) / r ≤ 8 / 5 := by
      rw [div_le_iff hr]
      exact hdc
    have hpos : 0 < L * (r + s) := mul_pos hL (by linarith)
    calc (L * s / r) * (Real.exp (T * c) - Real.exp ((n : ℝ) * c))
        ≤ (L * s / r) * (Real.exp (T * c) * ((T - (n : ℝ)) * c)) := hchain
      _ = (L * (r + s)) * (((T - (n : ℝ)) * c) / r) := hrw
      _ ≤ (L * (r + s)) * (8 / 5) := mul_le_mul_of_nonneg_left hfrac hpos.le
      _ ≤ 2 * (L * (r + s)) := by linarith [hpos]
  · -- overshoot: the residual is non-positive and below one payment
    have hd : (n : ℝ) - T ≤ 3 / 5 := by linarith
    have hd0 : 0 ≤ (n : ℝ) - T := by linarith
    have hv0 : 0 ≤ ((n : ℝ) - T) * c := mul_nonneg hd0 hcpos.le
    have hvr : ((n : ℝ) - T) * c ≤ 3 / 5 * r :=
      mul_le_mul hd hcr hcpos.le (by norm_num)
    have hvc : ((n : ℝ) - T) * c ≤ c := by
      have h := mul_le_mul_of_nonneg_right hd hcpos.le
      linarith
    have hev : Real.exp (((n : ℝ) - T) * c) ≤ 1 + r := by
      rw [← hexpc]
      exact Real.exp_le_exp.mpr hvc
    have hsplit : Real.exp ((n : ℝ) * c) = Real.exp (T * c) *
        Real.exp (((n : ℝ) - T) * c) := by
      rw [← Real.exp_add]
      ring_nf
    have hem1 : Real.exp (((n : ℝ) - T) * c) - 1 ≤
        ((n : ℝ) - T) * c * Real.exp (((n : ℝ) - T) * c) := by
      have h1 : 1 - ((n : ℝ) - T) * c ≤ Real.exp (-(((n : ℝ) - T) * c)) := by
        have h := Real.add_one_le_exp (-(((n : ℝ) - T) * c))
        linarith
      have h3 : Real.exp (-(((n : ℝ) - T) * c)) * Real.exp (((n : ℝ) - T) * c) = 1 := by
        rw [← Real.exp_add]
        simp
      nlinarith [mul_le_mul_of_nonneg_right h1 (Real.exp_pos (((n : ℝ) - T) * c)).le, h3]
    have hee : Real.exp (T * c) ≤ Real.exp ((n : ℝ) * c) :=
      Real.exp_le_exp.mpr (mul_le_mul_of_nonneg_right hTn hcpos.le)
    have hval0 : (L * s / r) * (Real.exp (T * c) - Real.exp ((n : ℝ) * c)) ≤ 0 :=
      mul_nonpos_of_nonneg_of_nonpos (by positivity) (by linarith)
    rw [abs_of_nonpos hval0]
    have hval : -((L * s / r) * (Real.exp (T * c) - Real.exp ((n : ℝ) * c))) =
        (L * (r + s) / r) * (Real.exp (((n : ℝ) - T) * c) - 1) := by
      rw [hsplit, hexpT]
      field_simp
      ring
    rw [hval]
    have hb1 : Real.exp (((n : ℝ) - T) * c) - 1 ≤ ((n : ℝ) - T) * c * (1 + r) := by
      calc Real.exp (((n : ℝ) - T) * c) - 1
          ≤ ((n : ℝ) - T) * c * Real.exp (((n : ℝ) - T) * c) := hem1
        _ ≤ ((n : ℝ) - T) * c * (1 + r) := mul_le_mul_of_nonneg_left hev hv0
    have hb2 : ((n : ℝ) - T) * c * (1 + r) ≤ 3 / 5 * r * (1 + r) :=
      mul_le_mul_of_nonneg_right hvr (by linarith)
    have hpos : 0 < L * (r + s) := mul_pos hL (by linarith)
    calc (L * (r + s) / r) * (Real.exp (((n : ℝ) - T) * c) - 1)
        ≤ (L * (r + s) / r) * (3 / 5 * r * (1 + r)) :=
          mul_le_mul_of_nonneg_left (le_trans hb1 hb2) (by positivity)
      _ = (L * (r + s)) * (3 / 5 * (1 + r)) := by
          field_simp
          ring
      _ ≤ 2 * (L * (r + s)) := by
          have hfac : 3 / 5 * (1 + r) ≤ 2 := by linarith
          linarith [mul_le_mul_of_nonneg_left hfac hpos.le]

/-- Core payoff estimate instantiated at the logarithmic payoff count of the
solver. -/
lemma payoff_bound (L r s : ℝ) (n : ℕ) (hL : 0 < L) (hr : 0 < r)
    (hr60 : r ≤ 1 / 60) (hs : 0 < s)
    (hlb : Real.log ((r + s) / s) / Real.log (1 + r) - 8 / 5 ≤ (n : ℝ))
    (hub : (n : ℝ) ≤ Real.log ((r + s) / s) / Real.log (1 + r) + 3 / 5) :
    |(L / r) * ((r + s) - s * (1 + r) ^ n)| ≤ 2 * (L * (r + s)) := by
  have hcpos : 0 < Real.log (1 + r) := Real.log_pos (by linarith)
  refine payoff_bound_abstract L r s (Real.log (1 + r))
    (Real.log ((r + s) / s) / Real.log (1 + r)) n hL hr hr60 hs hcpos ?_ ?_ ?_ hlb hub
  · have h := Real.log_le_sub_one_of_pos (show (0:ℝ) < 1 + r by linarith)
    linarith
  · exact Real.exp_log (by linarith)
  · rw [div_mul_cancel₀ _ hcpos.ne']
    exact Real.exp_log (by positivity)

/-- C4: for valid inputs with positive interest (within the validated UI
range) and positive repayment rate, the schedule the code produces pays the
loan off up to rounding of the term: the final row's recorded
remainingBalance lies within epsilon of 0 and the principal portions sum to
loanAmount within epsilon, for epsilon = two monthly payments. -/
theorem C4_schedule_payoff
    (principal down_payment interest_rate repayment_rate afa_rate tax_rate : ℝ)
    (h1 : 0 < interest_rate) (h2 : interest_rate ≤ 20) (h3 : 0 < repayment_rate)
    (h4 : 0 ≤ down_payment) (h5 : down_payment < principal)
    (rows : List AmortRow)
    (hrows : calculate_amortization_schedule principal down_payment interest_rate
      repayment_rate afa_rate tax_rate = .ok rows) :
    (∀ lastRow, rows.getLast? = some lastRow →
      0 ≤ lastRow.remainingBalance ∧
      lastRow.remainingBalance ≤
        2 * calculate_mortgage_payment principal down_payment interest_rate
          repayment_rate) ∧
    |((rows.map (fun row => row.principal)).sum) - (principal - down_payment)| ≤
      2 * calculate_mortgage_payment principal down_payment interest_rate
        repayment_rate := by
  have hL : 0 < principal - down_payment := by linarith
  have hr' : 0 < interest_rate / 12 / 100 := by positivity
  have hs' : 0 < repayment_rate / 12 / 100 := by positivity
  have hr60 : interest_rate / 12 / 100 ≤ 1 / 60 := by linarith
  rw [calculate_amortization_schedule,
    calculate_loan_term_pos principal down_payment interest_rate repayment_rate
      hL h1 h3] at hrows
  simp only [Except.ok.injEq] at hrows
  subst hrows
  have hTpos : 0 < Real.log ((interest_rate / 12 / 100 + repayment_rate / 12 / 100) /
      (repayment_rate / 12 / 100)) / Real.log (1 + interest_rate / 12 / 100) := by
    apply div_pos
    · apply Real.log_pos
      rw [lt_div_iff hs']
      linarith
    · exact Real.log_pos (by linarith)
  obtain ⟨hnlb, hnub⟩ := pyInt_round_bounds _ hTpos
  have hPMT : calculate_mortgage_payment principal down_payment interest_rate
      repayment_rate =
      (principal - down_payment) * (interest_rate / 12 / 100 + repayment_rate / 12 / 100) := by
    rw [calculate_mortgage_payment]
    ring
  have hiter := balStep_iterate interest_rate
    (calculate_mortgage_payment principal down_payment interest_rate repayment_rate)
    (principal - down_payment) (repayment_rate / 12 / 100) hr'.ne' hPMT
  have hb := payoff_bound (principal - down_payment) (interest_rate / 12 / 100)
    (repayment_rate / 12 / 100) _ hL hr' hr60 hs' hnlb hnub
  have hPMTpos : 0 < calculate_mortgage_payment principal down_payment interest_rate
      repayment_rate := by
    rw [hPMT]
    positivity
  constructor
  · intro lastRow hlast
    have hbal := scheduleAux_getLast principal (principal - down_payment) interest_rate
      afa_rate tax_rate repayment_rate
      (calculate_mortgage_payment principal down_payment interest_rate repayment_rate)
      _ 1 _ lastRow hlast
    rw [hbal, hiter]
    refine ⟨le_max_left _ _, max_le (by linarith) ?_⟩
    calc (principal - down_payment) / (interest_rate / 12 / 100) *
          ((interest_rate / 12 / 100 + repayment_rate / 12 / 100) -
            (repayment_rate / 12 / 100) * (1 + interest_rate / 12 / 100) ^ _)
        ≤ |(principal - down_payment) / (interest_rate / 12 / 100) *
          ((interest_rate / 12 / 100 + repayment_rate / 12 / 100) -
            (repayment_rate / 12 / 100) * (1 + interest_rate / 12 / 100) ^ _)| :=
          le_abs_self _
      _ ≤ 2 * ((principal - down_payment) *
          (interest_rate / 12 / 100 + repayment_rate / 12 / 100)) := hb
      _ = 2 * calculate_mortgage_payment principal down_payment interest_rate
            repayment_rate := by rw [hPMT]
  · rw [scheduleAux_sum_principal, hiter]
    rw [sub_sub_cancel_left, abs_neg]
    calc |(principal - down_payment) / (interest_rate / 12 / 100) *
          ((interest_rate / 12 / 100 + repayment_rate / 12 / 100) -
            (repayment_rate / 12 / 100) * (1 + interest_rate / 12 / 100) ^ _)|
        ≤ 2 * ((principal - down_payment) *
          (interest_rate / 12 / 100 + repayment_rate / 12 / 100)) := hb
      _ = 2 * calculate_mortgage_payment principal down_payment interest_rate
            repayment_rate := by rw [hPMT]

/-- C4 witness: the theorem applied to the reference scenario schedule. -/
theorem C4_witness :
    (0:ℝ) < 4 ∧ (4:ℝ) ≤ 20 ∧ (0:ℝ) < 2 ∧ (0:ℝ) ≤ 30000 ∧ (30000:ℝ) < 300000 ∧
    |(((scheduleAux 300000 270000 4 2 42 2 1350 330 1 270000).map
        (fun row => row.principal)).sum) - (300000 - 30000)| ≤
      2 * calculate_mortgage_payment 300000 30000 4 2 :=
  ⟨by norm_num, by norm_num, by norm_num, by norm_num, by norm_num,
    (C4_schedule_payoff 300000 30000 4 2 2 42 (by norm_num) (by norm_num)
      (by norm_num) (by norm_num) (by norm_num) _ (schedule_scenario 2 42)).2⟩

/-- `int()` of a nonnegative integer literal. -/
lemma pyInt_ofNat (n : ℕ) : pyInt (n : ℝ) = n := by
  rw [pyInt, if_pos (by positivity)]
  exact_mod_cast Int.floor_natCast n

/-- The solver on the zero-interest C7 scenario returns exactly 1. -/
lemma loan_term_c7 : calculate_loan_term 100000 10000 0 1200 = .ok (.fin 1) := by
  simp only [calculate_loan_term]
  norm_num

/-- The schedule on the C7 scenario: 12 rows from balance 90000. -/
lemma schedule_c7 :
    calculate_amortization_schedule 100000 10000 0 1200 2 42 =
      .ok (scheduleAux 100000 90000 0 2 42 1200 90000 12 1 90000) := by
  rw [calculate_amortization_schedule, loan_term_c7]
  have hm : calculate_mortgage_payment 100000 10000 0 1200 = 90000 := by
    rw [calculate_mortgage_payment]
    norm_num
  have hn : (pyInt ((1 : ℝ) * 12)).toNat = 12 := by
    rw [show (1 : ℝ) * 12 = ((12 : ℕ) : ℝ) by norm_num, pyInt_ofNat]
    rfl
  simp only [hm, hn]
  norm_num

/-- That schedule is non-empty, so `.iloc[-1]` succeeds. -/
lemma schedule_c7_last :
    ∃ lr, (scheduleAux 100000 90000 0 2 42 1200 90000 12 1 90000).getLast? =
      some lr := by
  have h : scheduleAux 100000 90000 0 2 42 1200 90000 12 1 90000 ≠ [] := by
    rw [show (12 : ℕ) = 11 + 1 from rfl, scheduleAux_cons]
    simp
  exact ⟨_, List.getLast?_eq_getLast _ h⟩

/-- Projection of the metrics on the C7 scenario: the avg rental income is
the accumulated total rent over 12 months divided by 12, as a function of the
session-state rent-increase list. -/
lemma metrics_c7 (s : List (ℕ × ℝ)) :
    (calculate_investment_metrics 100000 10000 0 1200 0 1000 0 2 42 0 s).map
      (fun m => m.avg_rental_income) =
    .ok (metricsTotalRent 1000 0 s 12 / 12) := by
  obtain ⟨lr, hlr⟩ := schedule_c7_last
  have h12 : (pyInt ((1 : ℝ) * 12)).toNat = 12 := by
    rw [show (1 : ℝ) * 12 = ((12 : ℕ) : ℝ) by norm_num, pyInt_ofNat]
    rfl
  rw [calculate_investment_metrics, loan_term_c7]
  simp only [h12, schedule_c7, hlr]
  norm_num [Except.map]

/-- Total escalated rent over 12 months with no custom increases. -/
lemma totalRent_c7_nil : metricsTotalRent 1000 0 ([] : List (ℕ × ℝ)) 12 = 12000 := by
  have hb : (1 : ℝ) + 0 / 100 = 1 := by norm_num
  rw [metricsTotalRent, show List.range 12 = [0, 1, 2, 3, 4, 5, 6, 7, 8, 9, 10, 11] from rfl]
  simp [rentAtMonth, hb, Real.one_rpow]
  norm_num

/-- Total escalated rent over 12 months with a 600 increase at year 1: only
month 12 is affected. -/
lemma totalRent_c7_inc : metricsTotalRent 1000 0 [(1, 600)] 12 = 12600 := by
  have hb : (1 : ℝ) + 0 / 100 = 1 := by norm_num
  rw [metricsTotalRent, show List.range 12 = [0, 1, 2, 3, 4, 5, 6, 7, 8, 9, 10, 11] from rfl]
  simp [rentAtMonth, hb, Real.one_rpow, List.filter]
  norm_num

/-- C7 counterexample: two runs of the metrics aggregation with identical
explicit arguments but different ambient session-state rent-increase lists
produce different outputs (the average rental income differs), so the
aggregation is not a pure function of its explicit arguments. -/
theorem C7_counterexample :
    calculate_investment_metrics 100000 10000 0 1200 0 1000 0 2 42 0 [] ≠
    calculate_investment_metrics 100000 10000 0 1200 0 1000 0 2 42 0 [(1, 600)] := by
  intro h
  have h1 := metrics_c7 []
  have h2 := metrics_c7 [(1, 600)]
  rw [h] at h1
  have h3 := h1.symm.trans h2
  simp only [Except.ok.injEq] at h3
  rw [totalRent_c7_nil, totalRent_c7_inc] at h3
  norm_num at h3

/-- C7 (amended): every core calculation is a deterministic function of its
explicit arguments together with the ambient session-state rent-increase
list; the metrics aggregator does read that shared mutable state, and only
`avg_rental_income` depends on it: all other outputs (and the error
behaviour) are identical under any two session states. -/
theorem C7_session_independence
    (purchase_price down_payment interest_rate repayment_rate monthly_expenses
      rental_income appreciation_rate afa_rate tax_rate rent_increase_rate : ℝ)
    (s1 s2 : List (ℕ × ℝ)) :
    (calculate_investment_metrics purchase_price down_payment interest_rate
        repayment_rate monthly_expenses rental_income appreciation_rate afa_rate
        tax_rate rent_increase_rate s1).map
      (fun m => (m.loan_term, m.monthly_mortgage, m.monthly_cash_flow,
        m.annual_cash_flow, m.cash_on_cash_return, m.future_value, m.total_equity,
        m.monthly_tax_benefit, m.annual_tax_benefit)) =
    (calculate_investment_metrics purchase_price down_payment interest_rate
        repayment_rate monthly_expenses rental_income appreciation_rate afa_rate
        tax_rate rent_increase_rate s2).map
      (fun m => (m.loan_term, m.monthly_mortgage, m.monthly_cash_flow,
        m.annual_cash_flow, m.cash_on_cash_return, m.future_value, m.total_equity,
        m.monthly_tax_benefit, m.annual_tax_benefit)) := by
  rw [calculate_investment_metrics, calculate_investment_metrics]
  cases hterm : calculate_loan_term purchase_price down_payment interest_rate
    repayment_rate with
  | error e => rfl
  | ok v =>
    cases v with
    | nan => rfl
    | pinf => rfl
    | ninf => rfl
    | fin lt =>
      by_cases hd : down_payment = 0
      · simp only [if_pos hd]
      · simp only [if_neg hd]
        cases hsched : calculate_amortization_schedule purchase_price down_payment
          interest_rate repayment_rate afa_rate tax_rate with
        | error e2 => rfl
        | ok rows =>
          cases hlast : rows.getLast? with
          | none => simp [hlast, Except.map]
          | some lr => simp [hlast, Except.map]
